/-
  Verification of the Signal Detection & Execution Engine of a Binance
  trading bot (binance_bot.py).  Prices and timestamps are modelled as
  rationals, exchange responses as explicit inductive values, and the
  stateful pieces (crossover state machine, request-coalescing cache,
  scheduler marks, position ledger) as explicit state-passing functions
  translated from the Python source.
-/
import Mathlib

namespace BinanceBot

/-! ## Crossover signal engine (MonitorTask.check_macd / check_ma_cross)

The detection code computes, from the last two points of two series
`A` (macd / ma9) and `B` (signal / ma26):

    current_state = None
    if prev_a < prev_b and cur_a > cur_b:   current_state = "golden"
    elif prev_a > prev_b and cur_a < cur_b: current_state = "dead"

and then fires a notification only when
`current_state is not None and current_state != last_state`,
updating the stored state only in that branch. -/

inductive Cross where
  | golden
  | dead
deriving DecidableEq, Repr

/-- The `current_state` computation of `check_macd` (lines 1025-1033) and
`check_ma_cross` (lines 1094-1102): strict comparisons on both the
previous and current points. -/
def crossState (prevA prevB curA curB : ℚ) : Option Cross :=
  if prevA < prevB ∧ curA > curB then some .golden
  else if prevA > prevB ∧ curA < curB then some .dead
  else none

/-- One run of the emission logic of `check_macd` / `check_ma_cross`
(lines 1036-1061 resp. 1104-1128): given the stored state for the key and
the four indicator points, returns (fired?, new stored state).  The stored
state is written only when a notification fires. -/
def crossStep (last : Option Cross) (prevA prevB curA curB : ℚ) :
    Bool × Option Cross :=
  let cur := crossState prevA prevB curA curB
  match cur with
  | none => (false, last)
  | some c => if some c ≠ last then (true, some c) else (false, last)

/-! ## Detection scheduler window and dedup (MonitorTask.run, lines 853-896) -/

/-- `next_end_timestamp` of the scheduler:
`(now // L) * L + L` with `//` the floor division of the source. -/
def nextBoundary (now L : ℚ) : ℚ := (⌊now / L⌋ : ℚ) * L + L

/-- `detection_window = 0 <= time_diff <= 10` with
`time_diff = next_end_timestamp - current_timestamp`. -/
def detectionWindow (now L : ℚ) : Bool :=
  decide (0 ≤ nextBoundary now L - now ∧ nextBoundary now L - now ≤ 10)

/-- A `detection_key` of the scheduler:
(user_id, symbol, market_type, interval, monitor_type, next_end_timestamp). -/
structure DetectionKey where
  userId : ℕ
  symbol : String
  marketType : String
  interval : String
  monitorType : String
  boundary : ℚ
deriving DecidableEq

/-- The dedup step of the scheduler (lines 879-890): if the key is already
in `last_detection`, skip; otherwise mark it and enqueue one detection
task.  Returns (new mark set, whether a detection was enqueued). -/
def schedMark (marks : List DetectionKey) (key : DetectionKey) :
    List DetectionKey × Bool :=
  if key ∈ marks then (marks, false)
  else (key :: marks, true)

/-! ## Trade manager (TradeManager / AutoTradeTask)

Exchange responses are modelled as explicit values; every helper keeps the
control flow of the Python source, with the network's answers passed in as
parameters and the network calls that were issued returned as an ordered
trace. -/

/-- A typed Binance API response as produced by `binance_api_request` /
`get_ticker_price`: `failure` is the Python `None` of the exception path,
`errResp` the `{"error": True, "code": ..., "msg": ...}` dictionaries
(locally built error dictionaries carry no code), `orderAck` a success
dictionary containing `"orderId"`, `tickerPrice` a `{"price": ...}`
dictionary, and `okResp` any other success dictionary. -/
inductive ApiResult where
  | failure
  | errResp (code : Option ℤ) (msg : String)
  | orderAck (orderId : ℕ)
  | tickerPrice (price : ℚ)
  | okResp
deriving DecidableEq, Repr

/-- Python truthiness of a response value (`if response:`): only `None` is
falsy among the values the API helpers return. -/
def ApiResult.isTruthy : ApiResult → Bool
  | .failure => false
  | _ => true

/-- Python `"error" in response` for a dictionary response. -/
def ApiResult.hasErrorKey : ApiResult → Bool
  | .errResp _ _ => true
  | _ => false

inductive OrderSide where
  | buy
  | sell
deriving DecidableEq, Repr

/-- A network call or outward side effect, in the order it is issued. -/
inductive Call where
  | positionRisk
  | timeSync
  | leverageCall (symbol : String) (leverage : ℕ)
  | tickerCall (symbol : String)
  | futuresOrder (symbol : String) (side : OrderSide) (quantity : ℚ)
      (reduceOnly : Bool)
  | notifyCloseFail (msg : String)
  | notifyOpenFail (msg : String)
  | notifyOpened
  | tpSlOrders
deriving DecidableEq, Repr

/-- One row of the `/fapi/v2/positionRisk` response. -/
structure RawPos where
  symbol : String
  positionAmt : ℚ
  positionSide : Option String
  leverage : ℕ
  entryPrice : ℚ
  markPrice : ℚ
  unRealizedProfit : ℚ
deriving DecidableEq, Repr

/-- Outcome of the position-risk request consumed by `update_positions`. -/
inductive PosRiskResp where
  | failure
  | errResp (code : Option ℤ) (msg : String)
  | rows (rs : List RawPos)
deriving DecidableEq, Repr

/-- An entry of `TradeManager.positions` as built by `update_positions`
(side kept as the string the source stores). -/
structure ExchPos where
  side : String
  leverage : ℕ
  quantity : ℚ
  entryPrice : ℚ
  markPrice : ℚ
  unrealizedProfit : ℚ
deriving DecidableEq, Repr

/-- Side derivation of `update_positions` (lines 609-616): use the reported
`positionSide`, falling back to the sign of the quantity when it is
`BOTH` or absent (one-way mode). -/
def sideOf (pos : RawPos) : String :=
  match pos.positionSide with
  | some s => if s = "BOTH" then (if pos.positionAmt > 0 then "LONG" else "SHORT") else s
  | none => if pos.positionAmt > 0 then "LONG" else "SHORT"

/-- `TradeManager.update_positions` (lines 593-632): an error response
keeps the old map and returns failure; a `None` response clears the map
before the iteration raises (caught, returning failure); a row list
rebuilds the whole map from scratch, skipping zero-quantity rows. -/
def updatePositions (resp : PosRiskResp) (old : List (String × ExchPos)) :
    Bool × List (String × ExchPos) :=
  match resp with
  | .errResp _ _ => (false, old)
  | .failure => (false, [])
  | .rows rs =>
      (true, rs.foldl (fun acc pos =>
        if pos.positionAmt ≠ 0 then
          acc ++ [(pos.symbol,
            { side := sideOf pos
              leverage := pos.leverage
              quantity := |pos.positionAmt|
              entryPrice := pos.entryPrice
              markPrice := pos.markPrice
              unrealizedProfit := pos.unRealizedProfit })]
        else acc) [])

/-- A record of the per-user `system_positions` ledger written by
`place_market_order` (lines 505-514). -/
structure SysRecord where
  orderId : ℕ
  symbol : String
  side : OrderSide
  quantity : ℚ
  entryPrice : ℚ
  leverage : Option ℕ
  amount : ℚ
  timestamp : ℚ
deriving DecidableEq, Repr

/-- Replace the value at a key of an association list, appending the key at
the end when absent (Python dictionary insertion semantics). -/
def setKey {β : Type} (l : List (String × β)) (k : String) (v : β) :
    List (String × β) :=
  match l with
  | [] => [(k, v)]
  | (k', v') :: rest => if k' = k then (k, v) :: rest else (k', v') :: setKey rest k v

/-- Remove a key from an association list (Python `del d[k]`). -/
def delKey {β : Type} (l : List (String × β)) (k : String) :
    List (String × β) :=
  l.filter (fun p => p.1 ≠ k)

/-- `system_positions[symbol].append(record)` with the
`if symbol not in system_positions: system_positions[symbol] = []`
guard of lines 502-514. -/
def appendRecord (ledger : List (String × List SysRecord)) (symbol : String)
    (r : SysRecord) : List (String × List SysRecord) :=
  match List.lookup symbol ledger with
  | none => setKey ledger symbol [r]
  | some rs => setKey ledger symbol (rs ++ [r])

/-- Python `round` at exact rational inputs: round half to even. -/
def roundHalfEven (x : ℚ) : ℤ :=
  let f := ⌊x⌋
  if x - f < 1/2 then f
  else if x - f > 1/2 then f + 1
  else if Even f then f else f + 1

/-- `round(quantity, 3)` of line 483. -/
def round3 (x : ℚ) : ℚ := (roundHalfEven (x * 1000) : ℚ) / 1000

/-- Python `if leverage:` truthiness of the optional leverage argument. -/
def leverageActive : Option ℕ → Bool
  | none => false
  | some l => l != 0

/-- `TradeManager.place_market_order` (lines 460-521): optionally set
leverage and abort on an error reply; fetch the ticker price and abort
when no price is available; submit a market order for
`round(amount / price, 3)`; on a response carrying `orderId` append a
`system_positions` record; always hand the final response back to the
caller unchanged.  Returns (result, ordered call trace, new ledger). -/
def placeMarketOrder (ledger : List (String × List SysRecord)) (symbol : String)
    (side : OrderSide) (amount : ℚ) (leverage : Option ℕ)
    (leverageResp tickerResp orderResp : ApiResult) (now : ℚ) :
    ApiResult × List Call × List (String × List SysRecord) :=
  let levCalls : List Call :=
    if leverageActive leverage then
      [.timeSync, .leverageCall symbol (leverage.getD 0)]
    else []
  if leverageActive leverage ∧ leverageResp.hasErrorKey then
    (leverageResp, levCalls, ledger)
  else
    let calls1 := levCalls ++ [Call.tickerCall symbol]
    match tickerResp with
    | .tickerPrice price =>
        let quantity := round3 (amount / price)
        let calls2 := calls1 ++ [.timeSync, .futuresOrder symbol side quantity false]
        match orderResp with
        | .orderAck oid =>
            (orderResp, calls2,
              appendRecord ledger symbol
                { orderId := oid, symbol := symbol, side := side
                  quantity := quantity, entryPrice := price
                  leverage := leverage, amount := amount, timestamp := now })
        | r => (r, calls2, ledger)
    | _ => (.errResp none "无法获取当前价格", calls1, ledger)

/-- Return value of `TradeManager.close_position`: the Python literal
`True` on success, or an error dictionary. -/
inductive CloseResult where
  | pyTrue
  | errDict (code : Option ℤ) (msg : String)
deriving DecidableEq, Repr

/-- `TradeManager.close_position` (lines 544-591): refresh the position
map over the network, error out when the symbol holds no position,
otherwise submit a full-size reduce-only market order on the opposite
side; on success drop the symbol from the position map and from the
`system_positions` ledger and return the Python literal `True`.
Returns (result, call trace, new position map, new ledger). -/
def closePosition (posResp : PosRiskResp) (oldPositions : List (String × ExchPos))
    (ledger : List (String × List SysRecord)) (symbol : String)
    (orderResp : ApiResult) :
    CloseResult × List Call × List (String × ExchPos) ×
      List (String × List SysRecord) :=
  let positions := (updatePositions posResp oldPositions).2
  match List.lookup symbol positions with
  | none => (.errDict none "没有持仓可平", [.positionRisk], positions, ledger)
  | some pos =>
      let side : OrderSide := if pos.side = "LONG" then .sell else .buy
      let calls := [Call.positionRisk, .timeSync,
        .futuresOrder symbol side pos.quantity true]
      match orderResp with
      | .errResp c m => (.errDict c m, calls, positions, ledger)
      | .failure => (.errDict none "平仓失败", calls, positions, ledger)
      | _ => (.pyTrue, calls, delKey positions symbol, delKey ledger symbol)

/-- A Python exception escaping `execute_trade`, or raised and caught
inside a monitor callback. -/
inductive PyErr where
  | typeError (msg : String)
  | nameError (msg : String)
deriving DecidableEq, Repr

/-- Normal return (Python `None`) or an uncaught exception. -/
inductive RunResult where
  | ok
  | raised (e : PyErr)
deriving DecidableEq, Repr

/-- Result of one `AutoTradeTask.execute_trade` run. -/
structure TradeOutcome where
  result : RunResult
  calls : List Call
  positions : List (String × ExchPos)
  ledger : List (String × List SysRecord)
deriving DecidableEq, Repr

/-- `AutoTradeTask.execute_trade` (lines 657-721): refresh positions,
derive the desired side from the signal; when the reported position is on
the opposite side, close it first — an error dictionary from the close is
notified and ends the run, while the close's success value (the Python
literal `True`) makes the membership test `"error" in close_resp` raise a
`TypeError`; otherwise open via `place_market_order`, notifying on an
error response, and on a truthy non-error response refresh positions,
notify and attach the take-profit/stop-loss orders.  `posResp1` answers
the refresh of line 664, `posResp2` the refresh inside `close_position`,
and `posResp3` the refresh of line 707. -/
def executeTrade (marketType : String) (oldPositions : List (String × ExchPos))
    (ledger : List (String × List SysRecord)) (symbol : String)
    (signalType : Cross) (amount : ℚ) (leverage : Option ℕ)
    (posResp1 posResp2 posResp3 : PosRiskResp)
    (closeOrderResp leverageResp tickerResp openOrderResp : ApiResult)
    (now : ℚ) : TradeOutcome :=
  if marketType ≠ "contract" ∧ marketType ≠ "futures" then
    ⟨.ok, [], oldPositions, ledger⟩
  else
    let positions1 := (updatePositions posResp1 oldPositions).2
    let currentSide := (List.lookup symbol positions1).map (·.side)
    let newSide := if signalType = .golden then "LONG" else "SHORT"
    let reversal := (currentSide = some "LONG" ∧ newSide = "SHORT")
      ∨ (currentSide = some "SHORT" ∧ newSide = "LONG")
    if reversal then
      let (closeRes, closeCalls, positions2, ledger2) :=
        closePosition posResp2 positions1 ledger symbol closeOrderResp
      let calls := Call.positionRisk :: closeCalls
      match closeRes with
      | .errDict _ m => ⟨.ok, calls ++ [.notifyCloseFail m], positions2, ledger2⟩
      | .pyTrue =>
          ⟨.raised (.typeError "argument of type bool is not iterable"),
            calls, positions2, ledger2⟩
    else
      let (resp, openCalls, ledger2) := placeMarketOrder ledger symbol
        (if newSide = "LONG" then .buy else .sell) amount leverage
        leverageResp tickerResp openOrderResp now
      let calls := Call.positionRisk :: openCalls
      if resp.isTruthy ∧ resp.hasErrorKey then
        ⟨.ok, calls ++ [.notifyOpenFail (match resp with
          | .errResp _ m => m
          | _ => "未知错误")], positions1, ledger2⟩
      else if resp.isTruthy then
        ⟨.ok, calls ++ [.positionRisk, .notifyOpened, .tpSlOrders],
          (updatePositions posResp3 positions1).2, ledger2⟩
      else
        ⟨.ok, calls, positions1, ledger2⟩

/-- Count of market-order submissions in a call trace. -/
def countOrders (cs : List Call) : ℕ :=
  cs.countP (fun c => match c with
    | .futuresOrder _ _ _ _ => true
    | _ => false)

/-- Count of opening (non-reduce-only) market-order submissions. -/
def countOpenOrders (cs : List Call) : ℕ :=
  cs.countP (fun c => match c with
    | .futuresOrder _ _ _ false => true
    | _ => false)

/-! ## Request coalescing cache (APIManager.get_kline, lines 406-450)

`get_kline` first consults `data_cache` without the lock and returns a
fresh (< 5 s old) entry; otherwise it takes the lock, registers itself in
`pending_requests`, performs the upstream `get_klines` call (which returns
the payload or `None` on any failure, never raising), stores the result in
`data_cache` unconditionally, resolves any registered waiter futures with
the same result, and clears the in-flight entry. -/

/-- The `data_cache` of `APIManager`: key → (payload-or-`None`, fetch
timestamp). -/
structure CacheState (α : Type) where
  dataCache : List (String × (Option α × ℚ))
deriving Repr

/-- One `get_kline` call as experienced by a caller that finds no other
request in flight for its key (`pending_requests` empty for the key, the
only reachable situation — see the two-caller machine below): return a
fresh cached value without fetching, else perform the upstream call with
result `upstream` and store it, `None` included.  Returns
(result, new cache, whether an upstream fetch was performed). -/
def getKlineOnce {α : Type} (st : CacheState α) (key : String) (now : ℚ)
    (upstream : Option α) : Option α × CacheState α × Bool :=
  match List.lookup key st.dataCache with
  | some (dat, ts) =>
      if now - ts < 5 then (dat, st, false)
      else (upstream, ⟨setKey st.dataCache key (upstream, now)⟩, true)
  | none => (upstream, ⟨setKey st.dataCache key (upstream, now)⟩, true)

/-! ## Two concurrent callers of get_kline (claim C4)

Cooperative (asyncio) interleaving of two tasks running
`APIManager.get_kline` on the same key with an empty cache.  Code between
two `await` points runs atomically; the suspension points are the lock
acquisition, the upstream call, and the wait on a registered future.  The
upstream call is issued while the caller still holds `self.lock`, since
`await get_klines(...)` sits inside the `async with self.lock` block. -/

/-- Control location of one task inside `get_kline`. -/
inductive TaskPC where
  | start
  | wantLock
  | fetching
  | waitFuture
  | done (result : Option ℕ)
deriving DecidableEq, Repr

/-- Joint state of the two tasks, the lock, the single cache key and the
in-flight marker.  `upstreamCalls` counts issued upstream fetches;
`fetchesHoldingLock` counts those issued while the fetching task held the
lock. -/
structure CoState where
  cache : Option (Option ℕ × ℚ)
  lockHeldBy : Option (Fin 2)
  pendingEntry : Bool
  waiters : List (Fin 2)
  pc0 : TaskPC
  pc1 : TaskPC
  upstreamCalls : ℕ
  fetchesHoldingLock : ℕ
  now : ℚ
deriving Repr

def CoState.pc (s : CoState) (i : Fin 2) : TaskPC :=
  if i = 0 then s.pc0 else s.pc1

def CoState.setPc (s : CoState) (i : Fin 2) (p : TaskPC) : CoState :=
  if i = 0 then { s with pc0 := p } else { s with pc1 := p }

/-- Task `i` has just acquired the lock and runs the critical section to
its next suspension point: with a request already in flight it registers
as a waiter and suspends on the future (still holding the lock, as the
source awaits inside the `async with` block); otherwise it registers the
in-flight entry and issues the upstream call — while holding the lock. -/
def critEnter (s : CoState) (i : Fin 2) : CoState :=
  if s.pendingEntry then
    ({ s with waiters := s.waiters ++ [i] }).setPc i .waitFuture
  else
    ({ s with
        pendingEntry := true
        upstreamCalls := s.upstreamCalls + 1
        fetchesHoldingLock :=
          s.fetchesHoldingLock + (if s.lockHeldBy = some i then 1 else 0)
      }).setPc i .fetching

/-- Attempt of `async with self.lock`: acquire when free (and continue
into the critical section without yielding), else suspend in the lock's
wait queue. -/
def tryLock (s : CoState) (i : Fin 2) : CoState :=
  if s.lockHeldBy = none then critEnter { s with lockHeldBy := some i } i
  else s.setPc i .wantLock

/-- One scheduling step: run task `i` from its current suspension point to
the next one.  `results n` is the payload the `n`-th upstream call
returns.  A task whose awaited event has not occurred keeps its state. -/
def coStep (results : ℕ → Option ℕ) (s : CoState) (i : Fin 2) : CoState :=
  match s.pc i with
  | .start =>
      (match s.cache with
       | some (dat, ts) =>
           if s.now - ts < 5 then s.setPc i (.done dat) else tryLock s i
       | none => tryLock s i)
  | .wantLock =>
      if s.lockHeldBy = none then critEnter { s with lockHeldBy := some i } i
      else s
  | .fetching =>
      let res := results (s.upstreamCalls - 1)
      let s1 := { s with cache := some (res, s.now) }
      let s2 := s1.waiters.foldl (fun st j => st.setPc j (.done res)) s1
      let s3 := { s2 with waiters := [], pendingEntry := false,
                          lockHeldBy := none }
      s3.setPc i (.done res)
  | .waitFuture => s
  | .done _ => s

/-- Initial state: empty cache, lock free, both tasks entering
`get_kline` with the same key. -/
def initCo : CoState :=
  { cache := none, lockHeldBy := none, pendingEntry := false, waiters := []
    pc0 := .start, pc1 := .start, upstreamCalls := 0
    fetchesHoldingLock := 0, now := 0 }

/-- Run the machine under a schedule (the asyncio event loop's order of
resuming ready tasks). -/
def coRun (results : ℕ → Option ℕ) (sched : List (Fin 2)) : CoState :=
  sched.foldl (coStep results) initCo

/-! ## User profile loader (load_user_data, lines 196-294)

The on-disk JSON record is modelled as a record of optional fields:
`none` means the corresponding dictionary key is absent.  `mode` is doubly
optional: the key may be absent, or present holding Python `None`. -/

structure MonitorEntry where
  enabled : Option Bool
deriving DecidableEq, Repr

structure MonitorsDict where
  price : Option MonitorEntry
  macd : Option MonitorEntry
  ma : Option MonitorEntry
deriving DecidableEq, Repr

/-- A dictionary-form watch entry of the `symbols` list. -/
structure WatchDict where
  symbol : String
  mtype : Option String
  monitor : Option String
  interval : Option String
  threshold : Option ℚ
deriving DecidableEq, Repr

/-- An entry of the stored `symbols` list: a legacy bare string or a
dictionary. -/
inductive SymEntry where
  | legacy (s : String)
  | entry (e : WatchDict)
deriving DecidableEq, Repr

structure AutoTradingDict where
  enabled : Option Bool
  mode : Option (Option String)
  symbols : Option (List String)
deriving DecidableEq, Repr

structure ApiDict where
  key : Option String
  secret : Option String
deriving DecidableEq, Repr

/-- The per-user record held in the JSON file and returned by
`load_user_data`. -/
structure UserData where
  symbols : Option (List SymEntry)
  monitors : Option MonitorsDict
  active : Option Bool
  autoTrading : Option AutoTradingDict
  binanceApi : Option ApiDict
  systemPositions : Option (List (String × List SysRecord))
deriving DecidableEq, Repr

/-- State of the user's file on disk. -/
inductive FileState where
  | absent
  | unreadable
  | content (d : UserData)
deriving DecidableEq, Repr

def defaultMonitors : MonitorsDict :=
  ⟨some ⟨some false⟩, some ⟨some false⟩, some ⟨some false⟩⟩

def defaultAutoTrading : AutoTradingDict :=
  ⟨some false, some none, some []⟩

/-- The full default record built when the file is missing or unreadable
(lines 255-294). -/
def defaultUserData : UserData :=
  ⟨some [], some defaultMonitors, some false, some defaultAutoTrading,
   some ⟨some "", some ""⟩, some []⟩

/-- Migration of one `symbols` entry (lines 236-250): a dictionary keeps
its fields, normalizing a `futures` market kind to `contract`; a legacy
string becomes a price-monitor dictionary with spot market, 15m interval
and threshold 5.0. -/
def migrateEntry : SymEntry → SymEntry
  | .legacy s =>
      .entry ⟨s, some "spot", some "price", some "15m", some 5⟩
  | .entry e =>
      .entry (if e.mtype = some "futures" then { e with mtype := some "contract" }
              else e)

/-- `load_user_data` (lines 196-294): full defaults for a missing or
unreadable file; for readable content, install the default sub-record for
each absent top-level key (present keys are kept as stored, except that
`auto_trading.symbols` is ensured) and migrate the `symbols` list. -/
def loadUserData : FileState → UserData
  | .absent => defaultUserData
  | .unreadable => defaultUserData
  | .content d =>
      let autoTr := d.autoTrading.getD defaultAutoTrading
      { symbols := some ((d.symbols.getD []).map migrateEntry)
        monitors := some (d.monitors.getD defaultMonitors)
        active := some (d.active.getD false)
        autoTrading := some { autoTr with symbols := some (autoTr.symbols.getD []) }
        binanceApi := some (d.binanceApi.getD ⟨some "", some ""⟩)
        systemPositions := some (d.systemPositions.getD []) }

/-- All six top-level keys are present. -/
def topLevelPresent (d : UserData) : Bool :=
  d.symbols.isSome && d.monitors.isSome && d.active.isSome
    && d.autoTrading.isSome && d.binanceApi.isSome && d.systemPositions.isSome

/-- The record is complete in the sense of claim C10: all top-level keys
present, the three monitor sub-entries each carry an enabled flag, the
auto-trading record carries enabled, mode and symbols, and the credential
pair carries key and secret. -/
def completeRecord (d : UserData) : Bool :=
  d.symbols.isSome
    && (match d.monitors with
        | some m =>
            (match m.price, m.macd, m.ma with
             | some p, some mc, some mv =>
                p.enabled.isSome && mc.enabled.isSome && mv.enabled.isSome
             | _, _, _ => false)
        | none => false)
    && d.active.isSome
    && (match d.autoTrading with
        | some a => a.enabled.isSome && a.mode.isSome && a.symbols.isSome
        | none => false)
    && (match d.binanceApi with
        | some b => b.key.isSome && b.secret.isSome
        | none => false)
    && d.systemPositions.isSome

/-- A stored file whose `auto_trading` key is present but empty
(`{"auto_trading": {}}`). -/
def emptyAutoFile : UserData :=
  ⟨none, none, none, some ⟨none, none, none⟩, none, none⟩

/-! ## Price monitor (MonitorTask.check_price_change, lines 963-996) -/

/-- Payload of a price-move notification. -/
structure PriceAlert where
  up : Bool
  changePercent : ℚ
  prevClose : ℚ
  curClose : ℚ
  threshold : ℚ
deriving DecidableEq, Repr

/-- The fallback default expression of lines 967-968,
`user_data.get('monitors', {}).get('price', {}).get('threshold', 3.0)`:
the name `user_data` is bound in no enclosing scope of
`check_price_change` (it only ever occurs as a local of other functions
and is never declared global), so evaluating the expression raises
`NameError`. -/
def priceThresholdDefault : Except PyErr ℚ :=
  .error (.nameError "name 'user_data' is not defined")

/-- The threshold resolution of lines 967-968,
`symbol_info.get('threshold', <default>)`: Python evaluates the default
argument before the lookup, so the `NameError` of
`priceThresholdDefault` is raised on every call, even when the entry
carries its own threshold. -/
def resolveThreshold (symbolInfo : WatchDict) : Except PyErr ℚ :=
  priceThresholdDefault.bind fun dflt => .ok (symbolInfo.threshold.getD dflt)

/-- The notification decision of lines 971-993 in isolation (the body
`check_price_change` would run after a successful threshold resolution,
and what the spec describes): given the resolved threshold and the close
prices of the last two candles (`kline_data[-2][4]`, `kline_data[-1][4]`),
compute `change = ((cur - prev) / prev) * 100` and notify exactly when
`|change| > threshold`. -/
def priceAlertOf (threshold prevClose curClose : ℚ) : Option PriceAlert :=
  let changePercent := ((curClose - prevClose) / prevClose) * 100
  if |changePercent| > threshold then
    some { up := changePercent > 0
           changePercent := changePercent
           prevClose := prevClose
           curClose := curClose
           threshold := threshold }
  else none

/-- `check_price_change` (lines 963-996) with its exception handling: the
body first resolves the threshold — which raises `NameError` on every
call, see `resolveThreshold` — and any exception is caught by the blanket
`except` of line 995 and only logged, so the function returns without
ever producing a notification. -/
def checkPriceChange (symbolInfo : WatchDict) (prevClose curClose : ℚ) :
    Option PriceAlert :=
  match resolveThreshold symbolInfo with
  | .error _ => none
  | .ok threshold => priceAlertOf threshold prevClose curClose

/-- A reported LONG position row used in the concrete reversal runs. -/
def longRow : RawPos :=
  { symbol := "ETHUSDT", positionAmt := 2, positionSide := some "LONG"
    leverage := 10, entryPrice := 100, markPrice := 100, unRealizedProfit := 0 }

/-! ## Theorems for the crossover, price-monitor and scheduler claims -/

/-- Claim C5, counterexample: the spec states the `golden` transition uses
`previousA ≤ previousB`, but the code compares the previous points
strictly; at previousA = previousB = 1, currentA = 2, currentB = 1 the
spec-side condition holds while the code computes no transition. -/
theorem C5_crossState_nonstrict_cex :
    ¬ (∀ pA pB cA cB : ℚ,
        crossState pA pB cA cB = some .golden ↔ (pA ≤ pB ∧ cA > cB)) := by
  intro h
  have h1 : crossState 1 1 2 1 = some .golden :=
    (h 1 1 2 1).mpr (by norm_num)
  have h2 : crossState (1 : ℚ) 1 2 1 = none := by norm_num [crossState]
  rw [h2] at h1
  exact Option.noConfusion h1

/-- Claim C5 (amended): the crossover engine computes `golden` exactly when
previousA < previousB and currentA > currentB (strict on the previous
points), `dead` exactly when previousA > previousB and currentA < currentB,
and no transition when the previous points are equal. -/
theorem C5_crossState_transitions (pA pB cA cB : ℚ) :
    (crossState pA pB cA cB = some .golden ↔ (pA < pB ∧ cA > cB))
    ∧ (crossState pA pB cA cB = some .dead ↔ (pA > pB ∧ cA < cB))
    ∧ crossState pB pB cA cB = none := by
  refine ⟨?_, ?_, ?_⟩
  · constructor
    · intro h
      unfold crossState at h
      split_ifs at h with h1 h2
      · exact h1
      · exact absurd h (by simp)
    · intro h
      unfold crossState
      rw [if_pos h]
  · constructor
    · intro h
      unfold crossState at h
      split_ifs at h with h1 h2
      · exact absurd h (by simp)
      · exact h2
    · intro h
      unfold crossState
      rw [if_neg fun hc => absurd hc.1 (lt_asymm h.1), if_pos h]
  · simp [crossState]

/-- Claim C6: a signal is emitted exactly when the newly computed
transition is a real transition that differs from the stored state; the
stored state is updated exactly on emission; with no prior stored state any
detected cross fires; and a concrete already-past-still-past feed
(stored `golden`, A above B at both of the last two points) emits nothing
and leaves the stored state unchanged. -/
theorem C6_crossStep_once_per_cross (last : Option Cross) (pA pB cA cB : ℚ) :
    ((crossStep last pA pB cA cB).1 = true ↔
        ((crossState pA pB cA cB).isSome ∧ crossState pA pB cA cB ≠ last))
    ∧ ((crossStep last pA pB cA cB).2 =
        if (crossStep last pA pB cA cB).1 = true then crossState pA pB cA cB
        else last)
    ∧ ((crossStep none pA pB cA cB).1 = (crossState pA pB cA cB).isSome)
    ∧ crossStep (some .golden) 2 1 3 1 = (false, some .golden) := by
  refine ⟨?_, ?_, ?_, ?_⟩
  · unfold crossStep
    cases h : crossState pA pB cA cB with
    | none => simp
    | some c =>
        by_cases hl : some c = last <;> simp [hl]
  · unfold crossStep
    cases h : crossState pA pB cA cB with
    | none => simp
    | some c =>
        by_cases hl : some c = last <;> simp [hl]
  · unfold crossStep
    cases h : crossState pA pB cA cB with
    | none => simp
    | some c => simp
  · norm_num [crossStep, crossState]

/-- Claim C1 (code bug): the threshold resolution of `check_price_change`
raises `NameError` on every call, because Python evaluates the fallback
default of lines 967-968 eagerly and it references the unbound name
`user_data`; the blanket `except` of line 995 swallows the exception, so
for every watch entry and every pair of closes the function produces no
notification — while the decision logic it was meant to run
(`priceAlertOf`, which is what the claim states) would fire at threshold
3 for closes 100 → 104 with an upward 4 percent change and stay silent
for closes 100 → 102. -/
theorem C1_price_monitor_never_fires (symbolInfo : WatchDict) (p c : ℚ) :
    resolveThreshold symbolInfo =
      .error (.nameError "name 'user_data' is not defined")
    ∧ checkPriceChange symbolInfo p c = none
    ∧ priceAlertOf 3 100 104 =
        some { up := true, changePercent := 4, prevClose := 100,
               curClose := 104, threshold := 3 }
    ∧ priceAlertOf 3 100 102 = none := by
  refine ⟨rfl, rfl, ?_, ?_⟩ <;> norm_num [priceAlertOf]

/-- Claim C7: a watch tuple is due exactly when
`0 ≤ nextBoundary − now ≤ 10` (with `nextBoundary = ⌊now / L⌋ * L + L`);
at interval 900 with now = 890 (difference 10) it is due and with
now = 889 (difference 11) it is not; and evaluating the identical
detection key a second time enqueues no additional detection. -/
theorem C7_detection_window_and_dedup (now L : ℚ)
    (marks : List DetectionKey) (k : DetectionKey) :
    (detectionWindow now L = true ↔
        (0 ≤ nextBoundary now L - now ∧ nextBoundary now L - now ≤ 10))
    ∧ ((schedMark marks k).2 = true ↔ k ∉ marks)
    ∧ (schedMark (schedMark marks k).1 k).2 = false
    ∧ detectionWindow 890 900 = true
    ∧ detectionWindow 889 900 = false := by
  have hfloor : ∀ x : ℚ, 0 ≤ x → x < 900 → ⌊x / 900⌋ = 0 := by
    intro x hx hx'
    rw [Int.floor_eq_iff]
    push_cast
    constructor
    · positivity
    · rw [div_lt_iff₀ (by norm_num)]
      linarith
  refine ⟨?_, ?_, ?_, ?_, ?_⟩
  · simp [detectionWindow]
  · unfold schedMark
    split_ifs with h <;> simp [h]
  · unfold schedMark
    split_ifs with h1 h2 <;> simp_all
  · have h0 : ⌊(890 : ℚ) / 900⌋ = 0 := hfloor 890 (by norm_num) (by norm_num)
    simp [detectionWindow, nextBoundary, h0]
    norm_num
  · have h0 : ⌊(889 : ℚ) / 900⌋ = 0 := hfloor 889 (by norm_num) (by norm_num)
    simp [detectionWindow, nextBoundary, h0]
    norm_num

/-- Claim C8, counterexample: closing with no open exchange position does
return an error and issues no order, but it is not short-circuited before
any network call — the position-refresh request to the position-risk
endpoint is issued first. -/
theorem C8_close_no_position_network_cex :
    (closePosition (.rows []) [] [] "BTCUSDT" .okResp).1 =
      .errDict none "没有持仓可平"
    ∧ countOrders (closePosition (.rows []) [] [] "BTCUSDT" .okResp).2.1 = 0
    ∧ ¬ ((closePosition (.rows []) [] [] "BTCUSDT" .okResp).2.1 = []) := by
  refine ⟨?_, ?_, ?_⟩ <;> decide

/-- Claim C8 (amended): for every close request on a symbol for which the
refreshed exchange position map has no entry, the operation returns the
no-position error and issues no order; the short-circuit happens after the
position-refresh network call, which is always issued. -/
theorem C8_close_no_position (posResp : PosRiskResp)
    (oldPositions : List (String × ExchPos))
    (ledger : List (String × List SysRecord)) (symbol : String)
    (orderResp : ApiResult)
    (h : List.lookup symbol (updatePositions posResp oldPositions).2 = none) :
    (closePosition posResp oldPositions ledger symbol orderResp).1 =
      .errDict none "没有持仓可平"
    ∧ (closePosition posResp oldPositions ledger symbol orderResp).2.1 =
      [.positionRisk]
    ∧ countOrders
        (closePosition posResp oldPositions ledger symbol orderResp).2.1 = 0
    ∧ (closePosition posResp oldPositions ledger symbol orderResp).2.2.2 =
      ledger := by
  simp [closePosition, h, countOrders]

/-- Witness for C8 at a concrete empty exchange-position snapshot. -/
theorem C8_close_no_position_witness :
    (closePosition (.rows []) [] [] "ETHUSDT" .failure).1 =
      .errDict none "没有持仓可平"
    ∧ (closePosition (.rows []) [] [] "ETHUSDT" .failure).2.1 =
      [.positionRisk]
    ∧ countOrders (closePosition (.rows []) [] [] "ETHUSDT" .failure).2.1 = 0
    ∧ (closePosition (.rows []) [] [] "ETHUSDT" .failure).2.2.2 = [] :=
  C8_close_no_position (.rows []) [] [] "ETHUSDT" .failure (by decide)

/-- Claim C9: when the flow reaches the order submission (leverage step
not rejected, ticker price available), the exchange's response is handed
back to the caller unchanged, exactly one order is submitted (no retry),
and a `system_positions` record is appended exactly when the response
carries an `orderId`; on any other response the ledger is untouched. -/
theorem C9_ledger_iff_order_ack (ledger : List (String × List SysRecord))
    (symbol : String) (side : OrderSide) (amount : ℚ) (leverage : Option ℕ)
    (leverageResp tickerResp orderResp : ApiResult) (now price : ℚ)
    (hlev : ¬ (leverageActive leverage ∧ leverageResp.hasErrorKey))
    (htick : tickerResp = .tickerPrice price) :
    (placeMarketOrder ledger symbol side amount leverage leverageResp
        tickerResp orderResp now).1 = orderResp
    ∧ (placeMarketOrder ledger symbol side amount leverage leverageResp
        tickerResp orderResp now).2.2 =
      (match orderResp with
       | .orderAck oid =>
          appendRecord ledger symbol
            { orderId := oid, symbol := symbol, side := side
              quantity := round3 (amount / price), entryPrice := price
              leverage := leverage, amount := amount, timestamp := now }
       | _ => ledger)
    ∧ countOrders (placeMarketOrder ledger symbol side amount leverage
        leverageResp tickerResp orderResp now).2.1 = 1 := by
  subst htick
  by_cases hL : leverageActive leverage = true
  · have hE : leverageResp.hasErrorKey = false := by
      cases hE' : leverageResp.hasErrorKey
      · rfl
      · exact absurd ⟨hL, hE'⟩ hlev
    cases orderResp <;>
      simp [placeMarketOrder, hL, hE, countOrders,
        List.countP_append, List.countP_cons]
  · simp only [Bool.not_eq_true] at hL
    cases orderResp <;>
      simp [placeMarketOrder, hL, countOrders,
        List.countP_append, List.countP_cons]

/-- Witness for C9: leverage accepted, ticker price 50, acknowledged
order 99. -/
theorem C9_ledger_iff_order_ack_witness :
    (¬ (leverageActive (some 10) ∧ ApiResult.hasErrorKey .okResp))
    ∧ ((placeMarketOrder [] "ETHUSDT" .buy 100 (some 10) .okResp
        (.tickerPrice 50) (.orderAck 99) 0).1 = .orderAck 99
      ∧ (placeMarketOrder [] "ETHUSDT" .buy 100 (some 10) .okResp
          (.tickerPrice 50) (.orderAck 99) 0).2.2 =
        (match ApiResult.orderAck 99 with
         | .orderAck oid =>
            appendRecord [] "ETHUSDT"
              { orderId := oid, symbol := "ETHUSDT", side := .buy
                quantity := round3 (100 / 50), entryPrice := 50
                leverage := some 10, amount := 100, timestamp := 0 }
         | _ => [])
      ∧ countOrders (placeMarketOrder [] "ETHUSDT" .buy 100 (some 10) .okResp
          (.tickerPrice 50) (.orderAck 99) 0).2.1 = 1) :=
  ⟨by decide,
   C9_ledger_iff_order_ack [] "ETHUSDT" .buy 100 (some 10) .okResp
     (.tickerPrice 50) (.orderAck 99) 0 50 (by decide) rfl⟩

/-- Claim C2: with an open LONG position and a `dead` signal the manager
issues the closing reduce-only SELL order first; if the close returns an
error the failure is notified and no opening order is issued; but if the
close succeeds, `close_position` returns the Python literal `True` and the
membership test `"error" in close_resp` raises a `TypeError`, so the new
opposite-side entry order is never attempted — contradicting the claim's
success path. -/
theorem C2_reversal_close_success_raises :
    ((executeTrade "contract" [] [] "ETHUSDT" .dead 100 (some 10)
        (.rows [longRow]) (.rows [longRow]) (.rows [longRow])
        (.errResp (some (-2010)) "新订单被拒绝") .okResp (.tickerPrice 100)
        (.orderAck 5) 0).result = .ok
      ∧ (executeTrade "contract" [] [] "ETHUSDT" .dead 100 (some 10)
          (.rows [longRow]) (.rows [longRow]) (.rows [longRow])
          (.errResp (some (-2010)) "新订单被拒绝") .okResp (.tickerPrice 100)
          (.orderAck 5) 0).calls =
        [.positionRisk, .positionRisk, .timeSync,
         .futuresOrder "ETHUSDT" .sell 2 true, .notifyCloseFail "新订单被拒绝"]
      ∧ countOpenOrders (executeTrade "contract" [] [] "ETHUSDT" .dead 100
          (some 10) (.rows [longRow]) (.rows [longRow]) (.rows [longRow])
          (.errResp (some (-2010)) "新订单被拒绝") .okResp (.tickerPrice 100)
          (.orderAck 5) 0).calls = 0)
    ∧ ((executeTrade "contract" [] [] "ETHUSDT" .dead 100 (some 10)
        (.rows [longRow]) (.rows [longRow]) (.rows [longRow])
        (.orderAck 7) .okResp (.tickerPrice 100) (.orderAck 5) 0).result =
          .raised (.typeError "argument of type bool is not iterable")
      ∧ (executeTrade "contract" [] [] "ETHUSDT" .dead 100 (some 10)
          (.rows [longRow]) (.rows [longRow]) (.rows [longRow])
          (.orderAck 7) .okResp (.tickerPrice 100) (.orderAck 5) 0).calls =
        [.positionRisk, .positionRisk, .timeSync,
         .futuresOrder "ETHUSDT" .sell 2 true]
      ∧ countOpenOrders (executeTrade "contract" [] [] "ETHUSDT" .dead 100
          (some 10) (.rows [longRow]) (.rows [longRow]) (.rows [longRow])
          (.orderAck 7) .okResp (.tickerPrice 100) (.orderAck 5) 0).calls
        = 0) := by
  decide

/-- Looking up the key just written by `setKey` yields the new value. -/
theorem lookup_setKey {β : Type} (l : List (String × β)) (k : String) (v : β) :
    List.lookup k (setKey l k v) = some v := by
  induction l with
  | nil => simp [setKey]
  | cons p rest ih =>
      obtain ⟨k', v'⟩ := p
      by_cases h : k' = k
      · subst h
        simp [setKey]
      · have h' : (k == k') = false := by
          simp [Ne.symm h]
        simp [setKey, h, h', ih, List.lookup]

/-- A fresh cache entry short-circuits `get_kline` without an upstream
fetch. -/
theorem getKlineOnce_cached {α : Type} (st : CacheState α) (key : String)
    (t' : ℚ) (dat : Option α) (ts : ℚ) (up2 : Option α)
    (hl : List.lookup key st.dataCache = some (dat, ts))
    (hwin : t' - ts < 5) :
    getKlineOnce st key t' up2 = (dat, st, false) := by
  unfold getKlineOnce
  rw [hl]
  simp [hwin]

/-- Claim C3, counterexample: an upstream failure at time 0 is stored in
the cache, and a second call for the same key at time 3 (inside the
5-second freshness window) returns the cached failure without performing
a fresh upstream fetch. -/
theorem C3_failed_fetch_not_cached_cex :
    ((getKlineOnce (⟨[]⟩ : CacheState ℕ) "k" 0 none).2.1).dataCache =
      [("k", (none, 0))]
    ∧ (getKlineOnce ((getKlineOnce (⟨[]⟩ : CacheState ℕ) "k" 0 none).2.1)
        "k" 3 (some 42)).1 = none
    ∧ ¬ ((getKlineOnce ((getKlineOnce (⟨[]⟩ : CacheState ℕ) "k" 0 none).2.1)
        "k" 3 (some 42)).2.2 = true) := by
  have h1 : (getKlineOnce (⟨[]⟩ : CacheState ℕ) "k" 0 none).2.1 =
      (⟨[("k", (none, 0))]⟩ : CacheState ℕ) := rfl
  have h2 : getKlineOnce (⟨[("k", (none, (0:ℚ)))]⟩ : CacheState ℕ) "k" 3
      (some 42) = (none, ⟨[("k", (none, 0))]⟩, false) :=
    getKlineOnce_cached _ "k" 3 none 0 (some 42) rfl (by norm_num)
  rw [h1, h2]
  exact ⟨rfl, rfl, by simp⟩

/-- Claim C3 (amended): when the upstream fetch fails, the failed result
(`None`) is stored in the cache with the fetch time, and every subsequent
call with the same key inside the 5-second freshness window receives the
cached failure without a fresh upstream fetch. -/
theorem C3_failed_fetch_is_cached {α : Type} (st : CacheState α) (key : String)
    (t t' : ℚ) (up2 : Option α)
    (hfetch : (getKlineOnce st key t none).2.2 = true)
    (hwin : t' - t < 5) :
    List.lookup key ((getKlineOnce st key t none).2.1).dataCache =
      some (none, t)
    ∧ getKlineOnce ((getKlineOnce st key t none).2.1) key t' up2 =
      (none, (getKlineOnce st key t none).2.1, false) := by
  have hstore : List.lookup key ((getKlineOnce st key t none).2.1).dataCache =
      some (none, t) := by
    unfold getKlineOnce at hfetch ⊢
    cases hl : List.lookup key st.dataCache with
    | none => simp [hl, lookup_setKey]
    | some p =>
        obtain ⟨dat, ts⟩ := p
        by_cases hfresh : t - ts < 5
        · simp [hl, hfresh] at hfetch
        · simp [hl, hfresh, lookup_setKey]
  exact ⟨hstore, getKlineOnce_cached _ _ _ _ _ _ hstore hwin⟩

/-- Witness for C3 at an empty cache, a failing fetch at time 0 and a
retry at time 3. -/
theorem C3_failed_fetch_is_cached_witness :
    ((getKlineOnce (⟨[]⟩ : CacheState ℕ) "kk" 0 none).2.2 = true)
    ∧ ((3:ℚ) - 0 < 5)
    ∧ (List.lookup "kk"
        (((getKlineOnce (⟨[]⟩ : CacheState ℕ) "kk" 0 none).2.1)).dataCache =
          some (none, 0)
      ∧ getKlineOnce ((getKlineOnce (⟨[]⟩ : CacheState ℕ) "kk" 0 none).2.1)
          "kk" 3 (some 7) =
        (none, (getKlineOnce (⟨[]⟩ : CacheState ℕ) "kk" 0 none).2.1, false)) :=
  ⟨rfl, by norm_num,
   C3_failed_fetch_is_cached (⟨[]⟩ : CacheState ℕ) "kk" 0 3 (some 7) rfl
     (by norm_num)⟩

/-- Claim C4, counterexample: two concurrent callers with the same key
and an empty cache issue two upstream calls, not one, and receive
different results; both fetches are issued while the fetching task holds
the lock, not outside it.  The schedule is the canonical asyncio order:
task 0 runs to its upstream await, task 1 blocks on the lock, task 0
completes and releases, task 1 acquires and fetches again. -/
theorem C4_coalescing_cex :
    ¬ ((coRun (fun n => some n) [0, 1, 0, 1, 1]).upstreamCalls = 1)
    ∧ (coRun (fun n => some n) [0, 1, 0, 1, 1]).upstreamCalls = 2
    ∧ (coRun (fun n => some n) [0, 1, 0, 1, 1]).pc0 = .done (some 0)
    ∧ (coRun (fun n => some n) [0, 1, 0, 1, 1]).pc1 = .done (some 1)
    ∧ (coRun (fun n => some n) [0, 1, 0, 1, 1]).fetchesHoldingLock = 2 := by
  decide

/-- Claim C4 (amended): for two concurrent cache-missing callers of the
same key, each performs its own upstream call — serialized by the lock
and issued while holding it (the in-flight registry is never observable
to the other task, so no coalescing occurs) — and the callers receive
their own fetch's result, which may differ. -/
theorem C4_serialized_fetches_inside_lock (results : ℕ → Option ℕ) :
    (coRun results [0, 1, 0, 1, 1]).upstreamCalls = 2
    ∧ (coRun results [0, 1, 0, 1, 1]).fetchesHoldingLock = 2
    ∧ (coRun results [0, 1, 0, 1, 1]).pc0 = .done (results 0)
    ∧ (coRun results [0, 1, 0, 1, 1]).pc1 = .done (results 1)
    ∧ (coRun results [0, 1, 0, 1, 1]).cache = some (results 1, 0) :=
  ⟨rfl, rfl, rfl, rfl, rfl⟩

/-- Claim C10, counterexample: a readable file whose `auto_trading` key is
present but empty loads to a record whose auto-trading sub-record carries
no `enabled` and no `mode` field — the loader only installs sub-record
defaults when the top-level key is absent. -/
theorem C10_incomplete_subrecord_cex :
    completeRecord (loadUserData (.content emptyAutoFile)) = false
    ∧ (loadUserData (.content emptyAutoFile)).autoTrading =
        some ⟨none, none, some []⟩ := by
  decide

/-- Claim C10 (amended): the loader always returns the six top-level keys;
a missing or unreadable file yields the complete default record; for
readable content each absent top-level key gets its full default
sub-record (present sub-records are kept as stored, except that
`auto_trading.symbols` is always ensured); legacy string watch entries
become price/spot/15m/threshold-5.0 dictionaries and a `futures` market
kind is normalized to `contract`. -/
theorem C10_loadUserData_defaults (fs : FileState) (d : UserData) (s : String)
    (mon itv : Option String) (th : Option ℚ) :
    topLevelPresent (loadUserData fs) = true
    ∧ loadUserData .absent = defaultUserData
    ∧ loadUserData .unreadable = defaultUserData
    ∧ completeRecord defaultUserData = true
    ∧ (loadUserData fs).autoTrading.map (·.symbols.isSome) = some true
    ∧ (loadUserData (.content d)).symbols =
        some ((d.symbols.getD []).map migrateEntry)
    ∧ migrateEntry (.legacy s) =
        .entry ⟨s, some "spot", some "price", some "15m", some 5⟩
    ∧ migrateEntry (.entry ⟨s, some "futures", mon, itv, th⟩) =
        .entry ⟨s, some "contract", mon, itv, th⟩
    ∧ (loadUserData (.content d)).monitors =
        some (d.monitors.getD defaultMonitors)
    ∧ (loadUserData (.content d)).binanceApi =
        some (d.binanceApi.getD ⟨some "", some ""⟩) := by
  refine ⟨?_, rfl, rfl, rfl, ?_, rfl, rfl, rfl, rfl, rfl⟩
  · cases fs <;>
      simp [loadUserData, defaultUserData, topLevelPresent,
        defaultMonitors, defaultAutoTrading]
  · cases fs <;>
      simp [loadUserData, defaultUserData, defaultAutoTrading]

end BinanceBot
